import Mathlib

/-!
# Verification of the LampNode control core

Shallow embedding of the LampNode firmware sketch (`src/LampNode.ino`).
Machine integers are modelled as `Int` with explicit reductions where C
conversions matter:

* storage into an `unsigned int` global (`target_colour`, `current_colour`,
  `transition`) is reduction modulo 2^32 (`u32`);
* passing a value to a `uint8_t` parameter (`applyColour`) is reduction
  modulo 2^8;
* C integer division on `int`/`long` truncates toward zero (`Int.tdiv`).

The MQTT side effects (`client.publish`) are modelled as an outbox of
abstract messages appended to the lamp state.
-/

namespace LampNode

/-- An RGB triple of C machine integers. -/
structure RGB where
  r : Int
  g : Int
  b : Int
deriving DecidableEq

/-- C conversion to `unsigned int` (32 bits on the ESP8266): reduction mod 2^32. -/
def u32 (x : Int) : Int := x % 4294967296

/-- C conversion to `uint8_t`: reduction mod 2^8. -/
def u8 (x : Int) : Int := x % 256

/-- The four operating modes, `enum Modes {COLOUR, TWINKLE, RAINBOW, CYCLE}`. -/
inductive Modes
  | COLOUR
  | TWINKLE
  | RAINBOW
  | CYCLE
deriving DecidableEq

/-- `const uint8_t ModeCount = 4`. -/
def ModeCount : Nat := 4

/-- The integer value of a `Modes` enumerator (C enums number from 0). -/
def modeNum : Modes → Nat
  | .COLOUR => 0
  | .TWINKLE => 1
  | .RAINBOW => 2
  | .CYCLE => 3

/-- The C cast `(Modes)n` for `n` in `0..3` (the only values produced by
`(Mode + 1) % ModeCount`). -/
def numMode : Nat → Modes
  | 0 => .COLOUR
  | 1 => .TWINKLE
  | 2 => .RAINBOW
  | _ => .CYCLE

/-- Outward MQTT publications, abstracted from their JSON payload strings. -/
inductive Msg
  | deviceInfo
  | powerState (isOn : Bool)
  | modeName (m : Modes)
  | brightnessConf (v : Int)
deriving DecidableEq

/-- The Arduino `map` function:
`(x - in_min) * (out_max - out_min) / (in_max - in_min) + out_min`,
computed in `long` arithmetic, where C `/` truncates toward zero. -/
def arduinoMap (x inMin inMax outMin outMax : Int) : Int :=
  Int.tdiv ((x - inMin) * (outMax - outMin)) (inMax - inMin) + outMin

/-- Entry `i` of the 50-step colour transition for one channel:
`map(addr, 0, 49, current, target)` from `setColourTransition`. -/
def transEntry (current target : Int) (i : Nat) : Int :=
  arduinoMap i 0 49 current target

/-- Entry `i` of the 30-step pulse ramp for one channel:
`map(addr, 0, 29, current, current/5)` from `generatePulse`
(`current_colour` is unsigned, so `current/5` is truncating division). -/
def pulseEntry (current : Int) (i : Nat) : Int :=
  arduinoMap i 0 29 current (Int.tdiv current 5)

/-- The per-channel transition table written by `setColourTransition`,
as a function of the entry index; entries are stored into the
`unsigned int transition[50][3]` array. Indices `≥ 50` are never read
(the fade cursor stays below 50). -/
def transitionTable (current target : RGB) : Nat → RGB :=
  fun i =>
    ⟨u32 (transEntry current.r target.r i),
     u32 (transEntry current.g target.g i),
     u32 (transEntry current.b target.b i)⟩

/-- `applyColour(uint8_t r, uint8_t g, uint8_t b)`: the arguments are first
converted to `uint8_t` (mod 256), then checked against `< 256`; on success
the whole strip is set to the colour (`some c`), otherwise nothing is set
and "Invalid RGB value, colour not set" is printed (`none`). -/
def applyColour (r g b : Int) : Option RGB :=
  let r' := u8 r
  let g' := u8 g
  let b' := u8 b
  if r' < 256 ∧ g' < 256 ∧ b' < 256 then some ⟨r', g', b'⟩ else none

/-- The lamp's global state: the mode/standby flags, the colour globals,
the fade machinery (`transition`, the static `addr` of
`fadeToColourTarget`, `target_met`), the brightness setting, the colour
currently shown on the LED strip, and the log of outward publications. -/
structure LampState where
  mode : Modes
  standby : Bool
  target : RGB
  current : RGB
  brightness : Int
  transition : Nat → RGB
  addr : Nat
  target_met : Bool
  rendered : RGB
  outbox : List Msg

/-- The state at boot: globals are zero-initialised, `brightness = 155`,
`Mode = COLOUR`, `standby = false`, `target_met = false`. -/
def initState : LampState where
  mode := .COLOUR
  standby := false
  target := ⟨0, 0, 0⟩
  current := ⟨0, 0, 0⟩
  brightness := 155
  transition := fun _ => ⟨0, 0, 0⟩
  addr := 0
  target_met := false
  rendered := ⟨0, 0, 0⟩
  outbox := []

/-- `applyColour` acting on the lamp state (the strip update). -/
def applyColourS (s : LampState) (r g b : Int) : LampState :=
  match applyColour r g b with
  | some c => { s with rendered := c }
  | none => s

/-- `setColour(int r, int g, int b)`: stores into the `unsigned int`
`current_colour` array, then renders it unless in standby. -/
def setColour (s : LampState) (r g b : Int) : LampState :=
  let s1 := { s with current := ⟨u32 r, u32 g, u32 b⟩ }
  if s1.standby then s1
  else applyColourS s1 s1.current.r s1.current.g s1.current.b

/-- `setColourTransition()`: recomputes all 50 entries of `transition`
from `current_colour` to `target_colour`. -/
def setColourTransition (s : LampState) : LampState :=
  { s with transition := transitionTable s.current s.target }

/-- `setColourTarget(int r, int g, int b)`: clears `target_met`, stores
the new target into the `unsigned int` `target_colour` array, and
recomputes the transition table. The static fade cursor is untouched. -/
def setColourTarget (s : LampState) (r g b : Int) : LampState :=
  setColourTransition { s with target_met := false, target := ⟨u32 r, u32 g, u32 b⟩ }

/-- `fadeToColourTarget()`: while the target is not met, applies
`transition[addr]` and advances the static cursor; on reaching 50 the
target is met and the cursor returns to 0. -/
def fadeToColourTarget (s : LampState) : LampState :=
  if s.target_met then s
  else
    let e := s.transition s.addr
    let s1 := setColour s e.r e.g e.b
    if s.addr + 1 ≥ 50 then { s1 with target_met := true, addr := 0 }
    else { s1 with addr := s.addr + 1 }

/-- `setStandby(bool state)`: on entry, blanks the strip and announces
power-off; on exit, recommits the preserved `target_colour` (recomputing
the fade) and announces power-on; finally records the flag. -/
def setStandby (s : LampState) (state : Bool) : LampState :=
  let s1 :=
    if state then
      let s' := applyColourS s 0 0 0
      { s' with outbox := s'.outbox ++ [Msg.powerState false] }
    else
      let s' := setColourTarget s s.target.r s.target.g s.target.b
      { s' with outbox := s'.outbox ++ [Msg.powerState true] }
  { s1 with standby := state }

/-- `setTheMode(Modes temp)`: publishes the new mode's name, performs the
per-mode entry action (recommit of the colour target for `COLOUR` when not
in standby, a blank strip for the procedural modes), then latches `Mode`. -/
def setTheMode (s : LampState) (temp : Modes) : LampState :=
  let s1 :=
    match temp with
    | .COLOUR =>
        let s' := { s with outbox := s.outbox ++ [Msg.modeName .COLOUR] }
        if ¬s'.standby then setColourTarget s' s'.target.r s'.target.g s'.target.b
        else s'
    | .TWINKLE => setColour { s with outbox := s.outbox ++ [Msg.modeName .TWINKLE] } 0 0 0
    | .RAINBOW => setColour { s with outbox := s.outbox ++ [Msg.modeName .RAINBOW] } 0 0 0
    | .CYCLE => setColour { s with outbox := s.outbox ++ [Msg.modeName .CYCLE] } 0 0 0
  { s1 with mode := temp }

/-- The mode-advance branch of `callback`:
`setTheMode((Modes)((Mode + 1) % ModeCount))`. -/
def modeAdvance (s : LampState) : LampState :=
  setTheMode s (numMode ((modeNum s.mode + 1) % ModeCount))

/-- The channel name parsed from a colour payload such as `{"blue":65}`. -/
inductive Chan
  | red
  | green
  | blue
deriving DecidableEq

/-- The comparison `command == "red"` (and its green/blue twins) from the
colour branch of `callback`. `command` is a `strtok` pointer into the
stack-allocated payload buffer and the right-hand side is a string literal
with static storage, so this is a C pointer comparison between pointers to
two distinct objects: it is false for every payload, whatever the parsed
channel name is. -/
def tokenPtrEqLiteral (_tok : Chan) (_lit : Chan) : Bool := false

/-- The colour branch of `callback`: parses the channel name and value,
then selects the channel by pointer-comparing the token against the three
string literals. -/
def colorCallback (s : LampState) (tok : Chan) (v : Int) : LampState :=
  if tokenPtrEqLiteral tok .red then setColourTarget s v s.target.g s.target.b
  else if tokenPtrEqLiteral tok .green then setColourTarget s s.target.r v s.target.b
  else if tokenPtrEqLiteral tok .blue then setColourTarget s s.target.r s.target.g v
  else s

/-- The brightness branch of `callback`: parses the value, guards it with
`brightness_temp >= 0 || brightness_temp < 256`, and on success stores it
and publishes `{"value":<v>}` on the brightness outbox. -/
def brightnessCallback (s : LampState) (v : Int) : LampState :=
  if 0 ≤ v ∨ v < 256 then
    { s with brightness := v, outbox := s.outbox ++ [Msg.brightnessConf v] }
  else s

/-- `Wheel(byte WheelPos, ...)`: the hue wheel. The byte input is first
reversed (`WheelPos = 255 - WheelPos`), then mapped through three
piecewise-linear segments. -/
def Wheel (pos : Nat) : RGB :=
  let w : Int := 255 - (pos % 256 : Nat)
  if w < 85 then ⟨255 - w * 3, 0, w * 3⟩
  else if w < 170 then ⟨0, (w - 85) * 3, 255 - (w - 85) * 3⟩
  else ⟨(w - 170) * 3, 255 - (w - 170) * 3, 0⟩

/-- The well-formedness hypothesis that the stored target channels are
in `unsigned int` range (true of every value the store `u32` produces). -/
abbrev TargetInRange (s : LampState) : Prop :=
  0 ≤ s.target.r ∧ s.target.r < 4294967296
  ∧ 0 ≤ s.target.g ∧ s.target.g < 4294967296
  ∧ 0 ≤ s.target.b ∧ s.target.b < 4294967296

/-- The behaviour of a `standby := true` then `standby := false` round trip
starting from state `s`, as the specification describes it. -/
def StandbyRoundTrip (s : LampState) : Prop :=
  (setStandby s true).rendered = ⟨0, 0, 0⟩
  ∧ (setStandby s true).target = s.target
  ∧ (setStandby s true).brightness = s.brightness
  ∧ (setStandby s true).mode = s.mode
  ∧ (setStandby s true).current = s.current
  ∧ (setStandby s true).standby = true
  ∧ (∀ r g b : Int,
      (setColour (setStandby s true) r g b).current = ⟨u32 r, u32 g, u32 b⟩
      ∧ (setColour (setStandby s true) r g b).rendered = (setStandby s true).rendered)
  ∧ (setStandby (setStandby s true) false).standby = false
  ∧ (setStandby (setStandby s true) false).target = s.target
  ∧ (setStandby (setStandby s true) false).brightness = s.brightness
  ∧ (setStandby (setStandby s true) false).mode = s.mode
  ∧ (setStandby (setStandby s true) false).current = s.current
  ∧ (setStandby (setStandby s true) false).target_met = false
  ∧ (setStandby (setStandby s true) false).transition = transitionTable s.current s.target

lemma u8_lt (x : Int) : u8 x < 256 :=
  Int.emod_lt_of_pos x (by decide)

lemma applyColour_eq (r g b : Int) : applyColour r g b = some ⟨u8 r, u8 g, u8 b⟩ := by
  unfold applyColour
  exact if_pos ⟨u8_lt r, u8_lt g, u8_lt b⟩

lemma applyColourS_eq (s : LampState) (r g b : Int) :
    applyColourS s r g b = { s with rendered := ⟨u8 r, u8 g, u8 b⟩ } := by
  unfold applyColourS
  rw [applyColour_eq]

lemma mode_setTheMode (s : LampState) (temp : Modes) : (setTheMode s temp).mode = temp := by
  cases temp <;> rfl

lemma mode_modeAdvance (s : LampState) :
    (modeAdvance s).mode = numMode ((modeNum s.mode + 1) % ModeCount) :=
  mode_setTheMode s _

/-- C1: the colour-channel branch of `callback` selects the channel with
`command == "red"` (a C pointer comparison of a `strtok` pointer into the
payload buffer against a string literal), which is false for every payload,
so the command `{"green": 200}` arriving with `target_colour = (10,50,30)`
leaves the whole state — target colour included — unchanged, and no fade is
recomputed; indeed every colour command is dropped. -/
theorem colour_command_dropped :
    colorCallback { initState with target := ⟨10, 50, 30⟩ } Chan.green 200
      = { initState with target := ⟨10, 50, 30⟩ }
    ∧ ∀ (s : LampState) (tok : Chan) (v : Int), colorCallback s tok v = s :=
  ⟨rfl, fun _ _ _ => rfl⟩

/-- C2: the brightness branch of `callback` guards the parsed value with
`brightness_temp >= 0 || brightness_temp < 256`, a tautology, so the
out-of-range value 999 is accepted: `brightness` becomes 999 and a
confirmation echoing 999 is published. -/
theorem brightness_guard_tautology :
    brightnessCallback initState 999
      = { initState with brightness := 999, outbox := [Msg.brightnessConf 999] }
    ∧ (brightnessCallback initState 999).brightness = 999
    ∧ ∀ v : Int, 0 ≤ v ∨ v < 256 :=
  ⟨rfl, rfl, fun v => by omega⟩

/-- C3 (counterexample): after committing target (255,0,0) from the boot
state and running ten fade ticks, a retarget to (0,0,255) leaves the static
fade cursor at 10, not 0 — the claimed reset of the cursor on every
`setColourTarget` does not happen. -/
theorem fade_cursor_survives_retarget_cex :
    (setColourTarget ((fadeToColourTarget^[10]) (setColourTarget initState 255 0 0)) 0 0 255).addr = 10
    ∧ (setColourTarget ((fadeToColourTarget^[10]) (setColourTarget initState 255 0 0)) 0 0 255).addr ≠ 0 := by
  constructor <;> decide

/-- C3 (amended): `setColourTarget` recomputes the transition table from
`current_colour` to the new target and clears `target_met`, but leaves the
fade cursor where it was, so a fade in progress resumes from that index
into the new table; the cursor is reset to 0 only inside
`fadeToColourTarget`, when it reaches 50, simultaneously with
`target_met := true`; each fade tick applies `transition[addr]` and
advances the cursor by one. -/
theorem setColourTarget_fade_behaviour (s : LampState) (r g b : Int) (a : Nat) :
    (setColourTarget s r g b).addr = s.addr
    ∧ (setColourTarget s r g b).target_met = false
    ∧ (setColourTarget s r g b).transition = transitionTable s.current ⟨u32 r, u32 g, u32 b⟩
    ∧ (fadeToColourTarget { s with target_met := false, addr := a }).current
        = ⟨u32 (s.transition a).r, u32 (s.transition a).g, u32 (s.transition a).b⟩
    ∧ (fadeToColourTarget { s with target_met := false, addr := a }).addr
        = (if a + 1 ≥ 50 then 0 else a + 1)
    ∧ (fadeToColourTarget { s with target_met := false, addr := a }).target_met
        = decide (a + 1 ≥ 50) := by
  refine ⟨rfl, rfl, rfl, ?_, ?_, ?_⟩ <;>
    · by_cases h : a + 1 ≥ 50 <;>
        simp [fadeToColourTarget, setColour, applyColourS_eq, h] <;>
        split <;> rfl

/-- C4 (counterexample): the transition entries are computed with C
division, which truncates toward zero; on the decreasing channel
255 → 0 the entry at index 24 is 131, while the claimed floor-division
formula `current + (target - current) * i / 49` gives 130. -/
theorem transition_trunc_division_cex :
    transEntry 255 0 24 = 131
    ∧ 255 + Int.fdiv ((0 - 255) * 24) 49 = 130
    ∧ transEntry 255 0 24 ≠ 255 + Int.fdiv ((0 - 255) * 24) 49 := by
  refine ⟨by decide, by decide, by decide⟩

/-- C4 (amended): entry `i` of the 50-step transition equals, per channel,
`current + (target - current) * i / 49` with C division truncating toward
zero (this coincides with floor division whenever `target ≥ current`);
entry 0 is exactly `current`, entry 49 exactly `target`; the 30-step pulse
table is the same formula with 29 in place of 49 and `current/5` as the
target; for current 0, target 255, entry 24 is 124. -/
theorem transEntry_closed_form (c t : Int) (i : Nat) :
    transEntry c t i = c + Int.tdiv ((t - c) * i) 49
    ∧ transEntry c t 0 = c
    ∧ transEntry c t 49 = t
    ∧ pulseEntry c i = c + Int.tdiv ((Int.tdiv c 5 - c) * i) 29
    ∧ pulseEntry c 0 = c
    ∧ pulseEntry c 29 = Int.tdiv c 5
    ∧ transEntry 0 255 24 = 124 ∧ transEntry 0 0 24 = 0 := by
  refine ⟨?_, ?_, ?_, ?_, ?_, ?_, by decide, by decide⟩
  · unfold transEntry arduinoMap
    norm_num
    rw [mul_comm ((i : Int)) (t - c), add_comm]
  · unfold transEntry arduinoMap
    norm_num
  · unfold transEntry arduinoMap
    norm_num
  · unfold pulseEntry arduinoMap
    norm_num
    rw [mul_comm ((i : Int)) (Int.tdiv c 5 - c), add_comm]
  · unfold pulseEntry arduinoMap
    norm_num
  · unfold pulseEntry arduinoMap
    norm_num

/-- C5: each mode command performs
`setTheMode((Modes)((Mode + 1) % ModeCount))` with `ModeCount = 4`, so
mode-advance is cyclic with period 4, and from `COLOUR` the visited
sequence is `TWINKLE`, `RAINBOW`, `CYCLE`, `COLOUR`. -/
theorem mode_advance_cyclic (s : LampState) :
    ((modeAdvance^[4]) s).mode = s.mode
    ∧ (modeAdvance s).mode = numMode ((modeNum s.mode + 1) % ModeCount)
    ∧ (modeAdvance initState).mode = .TWINKLE
    ∧ ((modeAdvance^[2]) initState).mode = .RAINBOW
    ∧ ((modeAdvance^[3]) initState).mode = .CYCLE
    ∧ ((modeAdvance^[4]) initState).mode = .COLOUR := by
  have h4 : ∀ t : LampState,
      (modeAdvance^[4]) t = modeAdvance (modeAdvance (modeAdvance (modeAdvance t))) :=
    fun _ => rfl
  refine ⟨?_, mode_modeAdvance s, by decide, by decide, by decide, by decide⟩
  rw [h4, mode_modeAdvance, mode_modeAdvance, mode_modeAdvance, mode_modeAdvance]
  cases hm : s.mode <;> rfl

/-- C6: `setStandby(true)` blanks the rendered strip while leaving
`target_colour`, `current_colour`, `brightness` and `Mode` untouched;
while standby is set, `setColour` still records `current_colour` but does
not render; `setStandby(false)` recommits the preserved target, so the
round trip keeps target and brightness and recomputes the fade transition
from the current colour to that same target. -/
theorem standby_roundtrip (s : LampState) (h : TargetInRange s) : StandbyRoundTrip s := by
  obtain ⟨h1, h2, h3, h4, h5, h6⟩ := h
  have hr : u32 s.target.r = s.target.r := Int.emod_eq_of_lt h1 h2
  have hg : u32 s.target.g = s.target.g := Int.emod_eq_of_lt h3 h4
  have hb : u32 s.target.b = s.target.b := Int.emod_eq_of_lt h5 h6
  refine ⟨rfl, rfl, rfl, rfl, rfl, rfl, fun r g b => ⟨rfl, rfl⟩, rfl, ?_, rfl, rfl, rfl, rfl, ?_⟩
  · show (⟨u32 s.target.r, u32 s.target.g, u32 s.target.b⟩ : RGB) = s.target
    rw [hr, hg, hb]
  · show transitionTable s.current ⟨u32 s.target.r, u32 s.target.g, u32 s.target.b⟩
        = transitionTable s.current s.target
    rw [hr, hg, hb]

/-- C6 (witness): the round-trip theorem applied to the boot state. -/
theorem standby_roundtrip_witness : TargetInRange initState ∧ StandbyRoundTrip initState :=
  ⟨by decide, standby_roundtrip initState (by decide)⟩

/-- C7: `applyColour` takes its channels as `uint8_t`, so an out-of-range
value such as 300 is silently truncated modulo 256 to 44 before the
`< 256` range check, which is therefore a tautology — the rejection branch
("Invalid RGB value, colour not set") is unreachable for every input — and
`setColourTarget` stores an out-of-range channel such as 300 into
`target_colour` with no check at all. -/
theorem range_check_dead :
    applyColour 300 0 0 = some ⟨44, 0, 0⟩
    ∧ (∀ r g b : Int, (applyColour r g b).isSome = true)
    ∧ (setColourTarget initState 300 0 0).target = ⟨300, 0, 0⟩ := by
  refine ⟨by decide, fun r g b => ?_, by decide⟩
  rw [applyColour_eq]
  rfl

/-- C8 (counterexample): `Wheel` starts by reversing its input
(`WheelPos = 255 - WheelPos`), so as the input increases from 0 the wheel
leaves red toward green, not toward blue: at input 1 it yields (252,3,0)
where the claimed red→blue first segment would yield (252,0,3), and the
breakpoints 85/170 land on green/blue rather than blue/green. -/
theorem wheel_direction_cex :
    Wheel 1 = ⟨252, 3, 0⟩
    ∧ Wheel 1 ≠ ⟨255 - 3 * 1, 0, 3 * 1⟩
    ∧ Wheel 85 = ⟨0, 255, 0⟩
    ∧ Wheel 170 = ⟨0, 0, 255⟩
    ∧ Wheel 255 = ⟨255, 0, 0⟩ := by
  refine ⟨by decide, by decide, by decide, by decide, by decide⟩

set_option maxRecDepth 8192 in
/-- C8 (amended): for every input byte, `Wheel` is piecewise linear with
slope magnitude 3 and breakpoints at inputs 0, 85, 170, 255 (pure red,
green, blue, red), but as the input increases the segments traverse
red→green, green→blue, blue→red — the claimed red→blue, blue→green,
green→red order holds for the reversed position `255 - input` that the
function computes first. -/
theorem wheel_piecewise (p : Fin 256) :
    Wheel p.val =
      (if p.val ≤ 85 then ⟨255 - 3 * (p.val : Int), 3 * (p.val : Int), 0⟩
       else if p.val ≤ 170 then ⟨0, 510 - 3 * (p.val : Int), 3 * (p.val : Int) - 255⟩
       else ⟨3 * (p.val : Int) - 510, 0, 765 - 3 * (p.val : Int)⟩ : RGB) := by
  revert p
  decide

set_option maxRecDepth 8192 in
/-- C10: for every input byte, the three channels `Wheel` produces are each
within [0,255], at least one channel is 0, and the channel sum is exactly
255 — so every colour the hue wheel hands to the Rainbow, Cycle and
Twinkle generators has total intensity 255. -/
theorem wheel_constant_sum (p : Fin 256) :
    (Wheel p.val).r + (Wheel p.val).g + (Wheel p.val).b = 255
    ∧ 0 ≤ (Wheel p.val).r ∧ (Wheel p.val).r ≤ 255
    ∧ 0 ≤ (Wheel p.val).g ∧ (Wheel p.val).g ≤ 255
    ∧ 0 ≤ (Wheel p.val).b ∧ (Wheel p.val).b ≤ 255
    ∧ ((Wheel p.val).r = 0 ∨ (Wheel p.val).g = 0 ∨ (Wheel p.val).b = 0) := by
  revert p
  decide

end LampNode
